import Mathlib

/-!
Verification of the kira-frontend checkout flow.

This file gives a shallow embedding of the checkout state machine of
`src/components/checkout/checkout.component.ts` and of the card validators of
`src/services/validation.service.ts`, and proves or refutes the frozen claims
about them.  JavaScript numbers are modelled as exact rationals (every numeric
literal appearing in the relevant computations is exactly representable, and
the decisive products such as `105.555 * 100` are exact in IEEE doubles as
well), strings as Lean strings, and the asynchronous collaborator calls
(link lookup, tokenization, payment submission) as explicit outcome
parameters of the corresponding transition.
-/

namespace KiraFrontend

/-! Section: JavaScript string primitives -/

/-- The code points matched by the character class `\s` of JavaScript regular
expressions (ECMAScript WhiteSpace and LineTerminator). -/
def wsChars : List Char :=
  [' ', '\t', '\n', '\r', '\x0b', '\x0c', ' ', ' ', ' ',
   ' ', ' ', ' ', ' ', ' ', ' ', ' ',
   ' ', ' ', ' ', ' ', ' ', ' ', ' ',
   '　', '﻿']

/-- Membership in the `\s` character class. -/
def isJsWs (c : Char) : Bool :=
  wsChars.any (fun w => c == w)

/-- Effect of `value.replace(/\s+/g, ...)` with the empty replacement on a
character list: drop every whitespace character. -/
def stripWsList (l : List Char) : List Char :=
  l.filter (fun c => !isJsWs c)

/-- Model of `value.replace(/\s+/g, ...)` with the empty replacement: drop all whitespace. -/
def stripWs (s : String) : String :=
  ⟨stripWsList s.data⟩

/-- The test `/^\d+$/.test(value)`: a non-empty string of decimal digits. -/
def isDigitString (s : String) : Bool :=
  !s.data.isEmpty && s.data.all Char.isDigit

/-- Model of `parseInt(value.charAt(i), 10)` for a digit character. -/
def digitVal (c : Char) : Nat :=
  c.toNat - '0'.toNat

/-! Section: Luhn validator (`ValidationService.luhnValidator`) -/

/-- Doubling step of the Luhn algorithm: `digit *= 2; if (digit > 9) digit -= 9`. -/
def luhnDouble (d : Nat) : Nat :=
  let t := d * 2
  if t > 9 then t - 9 else t

/-- The loop of `luhnValidator`, iterating over the digits right-to-left
(the argument list is the reversed character list) with the `shouldDouble`
flag, which starts `false` and toggles at every step. -/
def luhnLoop : List Char → Bool → Nat
  | [], _ => 0
  | c :: rest, dbl =>
    (if dbl then luhnDouble (digitVal c) else digitVal c) + luhnLoop rest (!dbl)

/-- The Luhn checksum accumulated by the loop of `luhnValidator`. -/
def luhnSum (s : String) : Nat :=
  luhnLoop s.data.reverse false

/-- The validation error object returned by `luhnValidator` on failure. -/
inductive LuhnErr
  | luhn
  deriving DecidableEq, Repr

/-- Body of `luhnValidator` after the emptiness guard: reject non-digit input,
otherwise accept exactly the strings whose Luhn checksum is divisible by ten. -/
def luhnCheck (v : String) : Option LuhnErr :=
  if isDigitString v = false then some LuhnErr.luhn
  else if luhnSum v % 10 = 0 then none
  else some LuhnErr.luhn

/-- Model of `ValidationService.luhnValidator`: `null` (here `none`) for a falsy control
value, otherwise strip whitespace and run the Luhn check. -/
def luhnValidator (value : String) : Option LuhnErr :=
  if value = "" then none
  else luhnCheck (stripWs value)

/-- Modelled from the spec, for comparison with `luhnLoop`: the checksum
described in spec section 4.1 — iterate digits right-to-left, double every
second digit (odd 0-indexed positions from the right), subtracting 9 from
doubled values exceeding 9.  The argument lists the digit values
right-to-left. -/
def specChecksum : List Nat → Nat
  | [] => 0
  | [d] => d
  | d0 :: d1 :: rest => d0 + luhnDouble d1 + specChecksum rest

/-- The source loop computes exactly the checksum described by the spec. -/
theorem luhnLoop_eq_specChecksum (l : List Char) :
    luhnLoop l false = specChecksum (l.map digitVal) := by
  match l with
  | [] => rfl
  | [c] => rfl
  | c0 :: c1 :: rest =>
    have ih := luhnLoop_eq_specChecksum rest
    simp [luhnLoop, specChecksum, ih]
    omega

/-! Section: Card number formatter (`CheckoutComponent.formatCardNumber`) -/

/-- Effect of the grouping replacement followed by `.trim()` on an all-digit
character list: insert a space after every complete group of four digits,
with no trailing space. -/
def grp : List Char → List Char
  | a :: b :: c :: d :: e :: rest => a :: b :: c :: d :: ' ' :: grp (e :: rest)
  | l => l

/-- The digits the formatter keeps: `value.replace(/\D/g, ...).substring(0, 16)`. -/
def digitsOf (s : String) : List Char :=
  (s.data.filter Char.isDigit).take 16

/-- Model of `CheckoutComponent.formatCardNumber`: strip non-digits, truncate to 16
digits, group by four with spaces. -/
def formatCardNumber (s : String) : String :=
  ⟨grp (digitsOf s)⟩

theorem grp_length (l : List Char) : (grp l).length = l.length + (l.length - 1) / 4 := by
  match l with
  | [] => rfl
  | [_] => simp [grp]
  | [_, _] => simp [grp]
  | [_, _, _] => simp [grp]
  | [_, _, _, _] => simp [grp]
  | a :: b :: c :: d :: e :: rest =>
    have ih := grp_length (e :: rest)
    simp [grp] at ih ⊢
    omega

theorem digit_not_ws (c : Char) (h : c.isDigit = true) : isJsWs c = false := by
  cases hw : isJsWs c
  · rfl
  · exfalso
    simp only [isJsWs, wsChars, List.any_cons, List.any_nil, Bool.or_eq_true,
      beq_iff_eq, Bool.false_eq_true, or_false] at hw
    rcases hw with rfl | rfl | rfl | rfl | rfl | rfl | rfl | rfl | rfl | rfl | rfl | rfl |
      rfl | rfl | rfl | rfl | rfl | rfl | rfl | rfl | rfl | rfl | rfl | rfl | rfl <;>
      revert h <;> decide

theorem stripWsList_of_digits (l : List Char) (h : ∀ c ∈ l, c.isDigit = true) :
    stripWsList l = l := by
  simp only [stripWsList]
  rw [List.filter_eq_self]
  intro c hc
  simp [digit_not_ws c (h c hc)]

theorem stripWsList_grp (l : List Char) (h : ∀ c ∈ l, c.isDigit = true) :
    stripWsList (grp l) = l := by
  match l with
  | [] => rfl
  | [_] => exact stripWsList_of_digits _ h
  | [_, _] => exact stripWsList_of_digits _ h
  | [_, _, _] => exact stripWsList_of_digits _ h
  | [_, _, _, _] => exact stripWsList_of_digits _ h
  | a :: b :: c :: d :: e :: rest =>
    have ha := h a (by simp)
    have hb := h b (by simp)
    have hc := h c (by simp)
    have hd := h d (by simp)
    have ih := stripWsList_grp (e :: rest)
      (fun x hx => h x (by simp only [List.mem_cons] at hx ⊢; tauto))
    have hsp : isJsWs ' ' = true := by decide
    simp only [grp, stripWsList, List.filter_cons] at ih ⊢
    rw [digit_not_ws a ha, digit_not_ws b hb, digit_not_ws c hc, digit_not_ws d hd, hsp]
    simp [ih]

/-! Section: Angular form validators

`Validators.required` fails on an empty value; `Validators.minLength` and
`Validators.pattern` are skipped on an empty value; all length validators
measure the raw control value (including any formatting characters). -/

/-- Model of `Validators.required`: passes iff the control value is non-empty. -/
def requiredOk (v : String) : Bool :=
  !(v == "")

/-- Model of `Validators.minLength(n)`: passes on the empty value, else requires length at least `n`. -/
def minLengthOk (n : Nat) (v : String) : Bool :=
  v == "" || n ≤ v.length

/-- Model of `Validators.maxLength(n)`: passes iff the length is at most `n`. -/
def maxLengthOk (n : Nat) (v : String) : Bool :=
  v.length ≤ n

/-- Model of `Validators.pattern(p)`: passes on the empty value, else tests the pattern. -/
def patternOkWith (p : String → Bool) (v : String) : Bool :=
  v == "" || p v

/-- The month alternative `(0[1-9]|1[0-2])` of the expiry pattern. -/
def isExpiryMonth (a b : Char) : Bool :=
  (a == '0' && '1' ≤ b && b ≤ '9') || (a == '1' && '0' ≤ b && b ≤ '2')

/-- The year group `([2-9][0-9])` of the expiry pattern. -/
def isExpiryYear (a b : Char) : Bool :=
  ('2' ≤ a && a ≤ '9') && b.isDigit

/-- The anchored expiry regular expression
`(0[1-9]|1[0-2])` then optional whitespace, a slash, optional whitespace,
then `([2-9][0-9])`. -/
def expiryPatternOk (s : String) : Bool :=
  match s.data with
  | [a, b, '/', c, d] => isExpiryMonth a b && isExpiryYear c d
  | [a, b, w, '/', c, d] => isExpiryMonth a b && isJsWs w && isExpiryYear c d
  | [a, b, '/', w, c, d] => isExpiryMonth a b && isJsWs w && isExpiryYear c d
  | [a, b, w1, '/', w2, c, d] =>
    isExpiryMonth a b && isJsWs w1 && isJsWs w2 && isExpiryYear c d
  | _ => false

/-- Validator chain of the `cardNumber` control:
`required`, `minLength(16)`, `maxLength(19)`, `luhnValidator()`. -/
def cardNumberFieldOk (v : String) : Bool :=
  requiredOk v && minLengthOk 16 v && maxLengthOk 19 v && (luhnValidator v).isNone

/-- Validator chain of the `expiryDate` control: `required` and the expiry pattern. -/
def expiryFieldOk (v : String) : Bool :=
  requiredOk v && patternOkWith expiryPatternOk v

/-- Validator chain of the `cvc` control:
`required`, `minLength(3)`, `maxLength(4)`, pattern of one or more digits. -/
def cvcFieldOk (v : String) : Bool :=
  requiredOk v && minLengthOk 3 v && maxLengthOk 4 v && patternOkWith isDigitString v

/-- Validator chain of the `cardHolder` control: `required`, `minLength(3)`. -/
def cardHolderFieldOk (v : String) : Bool :=
  requiredOk v && minLengthOk 3 v

/-- The values of the four controls of `paymentForm`. -/
structure PaymentFormValue where
  cardNumber : String
  expiryDate : String
  cvc : String
  cardHolder : String
  deriving DecidableEq, Repr

/-- Validity of `paymentForm`: every control passes its validator chain. -/
def formValid (f : PaymentFormValue) : Bool :=
  cardNumberFieldOk f.cardNumber && expiryFieldOk f.expiryDate &&
  cvcFieldOk f.cvc && cardHolderFieldOk f.cardHolder

/-- Invalidity of `searchControl` (validators `required`, `minLength(5)`). -/
def searchControlInvalid (v : String) : Bool :=
  !(requiredOk v && minLengthOk 5 v)

/-! Section: Data model (`models/payment.model.ts`) -/

/-- Lifecycle status of a payment link. -/
inductive PaymentLinkStatus
  | DRAFT | ACTIVE | EXPIRED | COMPLETED | CANCELLED
  deriving DecidableEq, Repr

/-- Provider selector. -/
inductive PspProvider
  | STRIPE | ADYEN
  deriving DecidableEq, Repr

/-- Fee breakdown of `FeePreview.breakdown`. -/
structure FeeBreakdown where
  fixedFeeUsd : ℚ
  variableFeeUsd : ℚ
  fxMarkupUsd : ℚ
  firstTxDiscountUsd : ℚ
  deriving DecidableEq, Repr

/-- Model of `FeePreview`. -/
structure FeePreview where
  fxRate : ℚ
  totalFeesUsd : ℚ
  recipientAmountMxn : ℚ
  breakdown : FeeBreakdown
  deriving DecidableEq, Repr

/-- Model of `PaymentLinkResponse`. -/
structure PaymentLinkResponse where
  id : String
  merchantId : String
  status : PaymentLinkStatus
  amountUsd : ℚ
  description : String
  expiresAt : Option String
  createdAt : String
  updatedAt : String
  checkoutUrl : String
  deriving DecidableEq, Repr

/-- Model of `PaymentLinkWithPreviewResponse`. -/
structure PaymentLinkWithPreviewResponse extends PaymentLinkResponse where
  feePreview : FeePreview
  deriving DecidableEq, Repr

/-- Terminal status of a payment result. -/
inductive PaymentResultStatus
  | COMPLETED | FAILED
  deriving DecidableEq, Repr

/-- Model of `ProcessPaymentResponse`. -/
structure ProcessPaymentResponse where
  transactionId : String
  status : PaymentResultStatus
  paymentLinkId : String
  pspProvider : PspProvider
  amountUsd : ℚ
  recipientAmountMxn : ℚ
  fxRateApplied : ℚ
  totalFeesUsd : ℚ
  deriving DecidableEq, Repr

/-- Model of `CheckoutStatus`. -/
inductive CheckoutStatus
  | INITIALIZING | AWAITING_INPUT | LOADING_LINK | LINK_NOT_FOUND | READY_TO_PAY
  | PROCESSING_PAYMENT | COMPLETED | FAILED | ERROR_RETRYABLE
  deriving DecidableEq, Repr

/-! Section: Checkout state machine (`CheckoutComponent`)

The component state is the tuple of its signals together with the form state
the operations read and write.  Each asynchronous collaborator call is
modelled by an explicit outcome argument of the triggering event: a link
lookup either yields a payload or a transport error, tokenization either
yields a token or throws, a payment submission either yields a
`ProcessPaymentResponse` or an `HttpErrorResponse`. -/

/-- The component state: the four signals plus the form state the class
methods manipulate. -/
structure CheckoutState where
  status : CheckoutStatus
  paymentLink : Option PaymentLinkWithPreviewResponse
  paymentResult : Option ProcessPaymentResponse
  errorMessage : Option String
  formDisabled : Bool
  formTouched : Bool
  form : PaymentFormValue
  searchTouched : Bool
  searchValue : String
  deriving DecidableEq, Repr

/-- Initial component state (field initializers of `CheckoutComponent`). -/
def initState : CheckoutState :=
  { status := CheckoutStatus.INITIALIZING
    paymentLink := none
    paymentResult := none
    errorMessage := none
    formDisabled := false
    formTouched := false
    form := { cardNumber := "", expiryDate := "", cvc := "", cardHolder := "Juan Pérez" }
    searchTouched := false
    searchValue := "" }

/-- Outcome of `MockPspSdkService.createToken`: resolves with a token, or the
`await` throws. -/
inductive TokenOutcome
  | ok
  | errored
  deriving DecidableEq, Repr

/-- The `error.error` body of an `HttpErrorResponse`, as far as
`typeof apiError.message === "string"` can observe it. -/
inductive ApiErrorBody
  | withMessage (m : String)
  | withNonStringMessage
  | withoutMessage
  deriving DecidableEq, Repr

/-- Outcome of `ApiService.processPayment`: an HTTP-level success carrying a
`ProcessPaymentResponse`, or a transport-level error whose body may be absent. -/
inductive SubmitOutcome
  | ok (resp : ProcessPaymentResponse)
  | transportError (body : Option ApiErrorBody)
  deriving DecidableEq, Repr

/-- Generic message set by the `catchError` branch of `processPayment`. -/
def genericTransportMsg : String :=
  "We couldn\x27t process your payment at this time. Please try again."

/-- Generic message set by the surrounding `catch` block of `onSubmit`. -/
def genericPrepareMsg : String :=
  "An unexpected error occurred while preparing the payment. Please try again."

/-- Model of `CheckoutComponent.loadLink`: enter `LOADING_LINK`, then either store the
payload and enter `READY_TO_PAY`, or (via `catchError`) enter
`LINK_NOT_FOUND` and pre-fill the search control with the attempted id. -/
def loadLink (s : CheckoutState) (id : String)
    (outcome : Option PaymentLinkWithPreviewResponse) : CheckoutState :=
  let s1 := { s with status := CheckoutStatus.LOADING_LINK }
  match outcome with
  | some data =>
    { s1 with paymentLink := some data, status := CheckoutStatus.READY_TO_PAY }
  | none =>
    { s1 with status := CheckoutStatus.LINK_NOT_FOUND, searchValue := id }

/-- One emission of `route.params` inside `ngOnInit`: load the link when an id
is present, otherwise enter `AWAITING_INPUT`. -/
def routeParamsEvent (s : CheckoutState) (id : Option String)
    (outcome : Option PaymentLinkWithPreviewResponse) : CheckoutState :=
  match id with
  | some i => loadLink s i outcome
  | none => { s with status := CheckoutStatus.AWAITING_INPUT }

/-- Model of `CheckoutComponent.search`: an invalid control is only marked touched;
otherwise a non-empty trimmed id is navigated to, which re-enters `loadLink`
via the route params subscription. -/
def search (s : CheckoutState)
    (outcome : Option PaymentLinkWithPreviewResponse) : CheckoutState :=
  if searchControlInvalid s.searchValue then
    { s with searchTouched := true }
  else
    let linkId := s.searchValue.trim
    if linkId = "" then s
    else loadLink s linkId outcome

/-- Model of `CheckoutComponent.onSubmit`.  An invalid form is only marked touched.
Otherwise the machine enters `PROCESSING_PAYMENT`, disables the form and
clears the previous error; a tokenization throw or a missing (falsy) link id
lands in the `catch` block; a transport error lands in `catchError`; an
HTTP-level success stores the result and branches on its `status` field.
`finalize` (and the `catch` block) re-enable the form on each of these
paths. -/
def onSubmit (s : CheckoutState) (tok : TokenOutcome) (gw : SubmitOutcome) :
    CheckoutState :=
  if formValid s.form then
    let s1 := { s with status := CheckoutStatus.PROCESSING_PAYMENT,
                       formDisabled := true, errorMessage := none }
    match tok with
    | TokenOutcome.errored =>
      { s1 with errorMessage := some genericPrepareMsg,
                status := CheckoutStatus.ERROR_RETRYABLE, formDisabled := false }
    | TokenOutcome.ok =>
      match s1.paymentLink with
      | none =>
        { s1 with errorMessage := some genericPrepareMsg,
                  status := CheckoutStatus.ERROR_RETRYABLE, formDisabled := false }
      | some link =>
        if link.id = "" then
          { s1 with errorMessage := some genericPrepareMsg,
                    status := CheckoutStatus.ERROR_RETRYABLE, formDisabled := false }
        else
          match gw with
          | SubmitOutcome.ok resp =>
            { s1 with paymentResult := some resp,
                      status := if resp.status = PaymentResultStatus.COMPLETED
                                then CheckoutStatus.COMPLETED
                                else CheckoutStatus.FAILED,
                      formDisabled := false }
          | SubmitOutcome.transportError body =>
            { s1 with errorMessage :=
                        some (match body with
                              | some (ApiErrorBody.withMessage m) => m
                              | _ => genericTransportMsg),
                      status := CheckoutStatus.ERROR_RETRYABLE,
                      formDisabled := false }
  else
    { s with formTouched := true }

/-- Model of `CheckoutComponent.retry`: unconditionally return to `READY_TO_PAY` and
clear the payment result and the error message. -/
def retry (s : CheckoutState) : CheckoutState :=
  { s with status := CheckoutStatus.READY_TO_PAY,
           paymentResult := none, errorMessage := none }

/-- The operations a UI binding layer can trigger, each with the outcome of
the collaborator call it performs. -/
inductive Event
  | routeParams (id : Option String) (outcome : Option PaymentLinkWithPreviewResponse)
  | loadLink (id : String) (outcome : Option PaymentLinkWithPreviewResponse)
  | search (outcome : Option PaymentLinkWithPreviewResponse)
  | onSubmit (tok : TokenOutcome) (gw : SubmitOutcome)
  | retry
  | setForm (f : PaymentFormValue)
  | setSearch (v : String)
  deriving Repr

/-- Interpretation of one event. -/
def step (s : CheckoutState) : Event → CheckoutState
  | Event.routeParams id outcome => routeParamsEvent s id outcome
  | Event.loadLink id outcome => loadLink s id outcome
  | Event.search outcome => search s outcome
  | Event.onSubmit tok gw => onSubmit s tok gw
  | Event.retry => retry s
  | Event.setForm f => { s with form := f }
  | Event.setSearch v => { s with searchValue := v }

/-- State after running a sequence of events from the initial state. -/
def run (es : List Event) : CheckoutState :=
  es.foldl step initState

/-- A state is reachable when some event sequence produces it. -/
def Reachable (s : CheckoutState) : Prop :=
  ∃ es : List Event, run es = s

/-- Model of `Math.round` on an exact value: round half-up (ties toward positive
infinity). -/
def jsRound (q : ℚ) : ℤ :=
  ⌊q + 1 / 2⌋

/-- Model of `CheckoutComponent.totalAmount`: zero without a link, otherwise the sum of
the base amount and the total fees, rounded at the cent by `Math.round`. -/
def totalAmount (s : CheckoutState) : ℚ :=
  match s.paymentLink with
  | none => 0
  | some link =>
    (jsRound ((link.amountUsd + link.feePreview.totalFeesUsd) * 100) : ℚ) / 100

/-- Modelled from the spec, for comparison with `jsRound`: rounding
half-away-from-zero. -/
def specRoundHalfAwayFromZero (q : ℚ) : ℤ :=
  if 0 ≤ q then ⌊q + 1 / 2⌋ else -⌊-q + 1 / 2⌋

/-- Modelled from the spec, for comparison with `totalAmount`: the derived
total with half-away-from-zero rounding at the cent. -/
def specTotalAmount (s : CheckoutState) : ℚ :=
  match s.paymentLink with
  | none => 0
  | some link =>
    (specRoundHalfAwayFromZero ((link.amountUsd + link.feePreview.totalFeesUsd) * 100) : ℚ)
      / 100

/-- Invariant-preservation principle for reachable states. -/
theorem reachable_invariant (P : CheckoutState → Prop) (h0 : P initState)
    (hstep : ∀ s e, P s → P (step s e)) : ∀ s, Reachable s → P s := by
  have haux : ∀ (es : List Event) (s : CheckoutState), P s → P (es.foldl step s) := by
    intro es
    induction es with
    | nil => intro s hs; exact hs
    | cons e rest ih =>
      intro s hs
      exact ih (step s e) (hstep s e hs)
  rintro s ⟨es, rfl⟩
  exact haux es initState h0

/-! Section: Sample data for witnesses and counterexamples -/

/-- A fee preview with the totals of the worked example of the spec. -/
def sampleFeePreview : FeePreview :=
  { fxRate := 17
    totalFeesUsd := 5.555
    recipientAmountMxn := 1700
    breakdown :=
      { fixedFeeUsd := 1, variableFeeUsd := 4.555, fxMarkupUsd := 0,
        firstTxDiscountUsd := 0 } }

/-- A loaded payment link. -/
def sampleLink : PaymentLinkWithPreviewResponse :=
  { id := "pl_abc123xyz"
    merchantId := "m_1"
    status := PaymentLinkStatus.ACTIVE
    amountUsd := 100
    description := "demo link"
    expiresAt := none
    createdAt := "2026-01-01T00:00:00Z"
    updatedAt := "2026-01-01T00:00:00Z"
    checkoutUrl := "https://pay.example/links/pl_abc123xyz"
    feePreview := sampleFeePreview }

/-- A second link, for reload scenarios. -/
def sampleLink2 : PaymentLinkWithPreviewResponse :=
  { sampleLink with id := "pl_second" }

/-- A successful business outcome. -/
def completedResp : ProcessPaymentResponse :=
  { transactionId := "tx_1"
    status := PaymentResultStatus.COMPLETED
    paymentLinkId := "pl_abc123xyz"
    pspProvider := PspProvider.STRIPE
    amountUsd := 100
    recipientAmountMxn := 1700
    fxRateApplied := 17
    totalFeesUsd := 5.555 }

/-- A declined business outcome. -/
def failedResp : ProcessPaymentResponse :=
  { completedResp with transactionId := "tx_2", status := PaymentResultStatus.FAILED }

/-- A form value passing every local validator. -/
def goodForm : PaymentFormValue :=
  { cardNumber := "4532015112830366", expiryDate := "12 / 25", cvc := "123",
    cardHolder := "Juan Perez" }

/-- A reachable-looking state that is ready to pay with a valid form. -/
def readyState : CheckoutState :=
  { initState with status := CheckoutStatus.READY_TO_PAY,
                   paymentLink := some sampleLink, form := goodForm }

/-! Section: Helper lemmas -/

theorem stripWs_empty : stripWs "" = "" := rfl

theorem ne_empty_of_stripWs_ne_empty {s : String} (h : stripWs s ≠ "") : s ≠ "" := by
  intro he
  exact h (by rw [he]; decide)

theorem luhnValidator_of_ne_empty {s : String} (h : s ≠ "") :
    luhnValidator s = luhnCheck (stripWs s) := by
  simp [luhnValidator, h]

/-! Section: Claim C5 -/

/-- Claim C5: for every input whose whitespace-stripped form is a non-empty
digit string, the Luhn validator accepts iff the right-to-left
alternately-doubled checksum is divisible by ten; embedded whitespace never
changes the verdict; a stripped-non-empty input with a non-digit character is
rejected; and the four concrete examples behave as stated. -/
theorem luhn_validator_correct :
    (∀ s : String, stripWs s ≠ "" → isDigitString (stripWs s) = true →
      (luhnValidator s = none ↔
        specChecksum ((stripWs s).data.reverse.map digitVal) % 10 = 0)) ∧
    (∀ s : String, stripWs s ≠ "" → isDigitString (stripWs s) = false →
      luhnValidator s = some LuhnErr.luhn) ∧
    (∀ s t : String, stripWs s = stripWs t → stripWs s ≠ "" →
      luhnValidator s = luhnValidator t) ∧
    luhnValidator "4532015112830366" = none ∧
    luhnValidator "79927398713" = none ∧
    luhnValidator "1234567890123456" = some LuhnErr.luhn ∧
    luhnValidator "79927398714" = some LuhnErr.luhn := by
  refine ⟨?_, ?_, ?_, by decide, by decide, by decide, by decide⟩
  · intro s hne hdig
    rw [luhnValidator_of_ne_empty (ne_empty_of_stripWs_ne_empty hne)]
    rw [luhnCheck, hdig]
    have hsum : luhnSum (stripWs s) =
        specChecksum ((stripWs s).data.reverse.map digitVal) := by
      rw [luhnSum, luhnLoop_eq_specChecksum]
    rw [hsum]
    simp only [Bool.true_eq_false, if_false]
    split_ifs with hmod
    · simpa using hmod
    · simpa using hmod
  · intro s hne hdig
    rw [luhnValidator_of_ne_empty (ne_empty_of_stripWs_ne_empty hne)]
    simp [luhnCheck, hdig]
  · intro s t hst hne
    rw [luhnValidator_of_ne_empty (ne_empty_of_stripWs_ne_empty hne),
        luhnValidator_of_ne_empty (ne_empty_of_stripWs_ne_empty (hst ▸ hne)), hst]

/-- Witness for claim C5: the universally quantified parts applied at
concrete inputs. -/
theorem luhn_validator_correct_witness :
    luhnValidator "4532 0151 1283 0366" = none ∧
    luhnValidator "4111-1111" = some LuhnErr.luhn ∧
    luhnValidator "7992 7398 713" = luhnValidator "79927398713" := by
  refine ⟨?_, ?_, ?_⟩
  · exact (luhn_validator_correct.1 "4532 0151 1283 0366" (by decide) (by decide)).mpr
      (by decide)
  · exact luhn_validator_correct.2.1 "4111-1111" (by decide) (by decide)
  · exact luhn_validator_correct.2.2.1 "7992 7398 713" "79927398713" (by decide) (by decide)

/-! Section: Claim C9 -/

/-- Claim C9 counterexample: a whitespace-only non-empty input has an empty
whitespace-stripped form, yet the validator reports the luhn error instead of
the claimed "no error" — the falsiness check precedes stripping. -/
theorem luhn_whitespace_only_cex :
    stripWs " " = "" ∧ luhnValidator " " = some LuhnErr.luhn := by
  exact ⟨by decide, by decide⟩

/-- Claim C9 (amended): only the empty (falsy) candidate string is treated as
valid-absent; every non-empty candidate whose whitespace-stripped form is
empty is reported invalid with the luhn error. -/
theorem luhn_empty_amended :
    luhnValidator "" = none ∧
    (∀ s : String, s ≠ "" → stripWs s = "" → luhnValidator s = some LuhnErr.luhn) := by
  refine ⟨rfl, ?_⟩
  intro s hne hstrip
  rw [luhnValidator_of_ne_empty hne, hstrip]
  decide

/-- Witness for claim C9 (amended): applied at the single-space string. -/
theorem luhn_empty_amended_witness :
    luhnValidator "\t " = some LuhnErr.luhn :=
  luhn_empty_amended.2 "\t " (by decide) (by decide)

/-! Section: Claim C7 -/

theorem digitsOf_all_digit (s : String) : ∀ c ∈ digitsOf s, c.isDigit = true := by
  intro c hc
  have hmem : c ∈ s.data.filter Char.isDigit := List.take_subset _ _ hc
  exact (List.mem_filter.mp hmem).2

theorem digitsOf_length_le (s : String) : (digitsOf s).length ≤ 16 := by
  simp only [digitsOf, List.length_take]
  exact min_le_left _ _

theorem string_mk_length (l : List Char) : (⟨l⟩ : String).length = l.length := rfl

theorem string_mk_ne_empty {l : List Char} (h : l ≠ []) : (⟨l⟩ : String) ≠ "" := by
  intro he
  apply h
  have : (⟨l⟩ : String).data = ("" : String).data := by rw [he]
  simpa using this

/-- The `cardNumber` control accepts a formatted all-digit value iff it holds
13 to 16 digits passing the Luhn check: the length validators measure the
formatted string, spaces included. -/
theorem cardNumberFieldOk_grp (ds : List Char) (hall : ∀ c ∈ ds, c.isDigit = true)
    (hle : ds.length ≤ 16) :
    cardNumberFieldOk ⟨grp ds⟩ = true ↔
      (13 ≤ ds.length ∧ luhnLoop ds.reverse false % 10 = 0) := by
  by_cases h0 : ds = []
  · subst h0
    decide
  · have hpos : 0 < ds.length := List.length_pos.mpr h0
    have hlen : (grp ds).length = ds.length + (ds.length - 1) / 4 := grp_length ds
    have hgne : grp ds ≠ [] := by
      intro h
      rw [h] at hlen
      simp at hlen
      omega
    have hne : (⟨grp ds⟩ : String) ≠ "" := string_mk_ne_empty hgne
    have hstrip : stripWs ⟨grp ds⟩ = ⟨ds⟩ := by
      simp only [stripWs]
      rw [stripWsList_grp ds hall]
    have hdig : isDigitString ⟨ds⟩ = true := by
      simp only [isDigitString, Bool.and_eq_true, Bool.not_eq_true', List.isEmpty_iff,
        List.all_eq_true]
      exact ⟨by simpa using h0, fun c hc => by simpa using hall c (by simpa using hc)⟩
    have hluhn : luhnValidator ⟨grp ds⟩ = luhnCheck ⟨ds⟩ := by
      rw [luhnValidator_of_ne_empty hne, hstrip]
    have hsum : luhnSum ⟨ds⟩ = luhnLoop ds.reverse false := rfl
    simp only [cardNumberFieldOk, Bool.and_eq_true, requiredOk, minLengthOk, maxLengthOk,
      hluhn, luhnCheck, hdig, Bool.true_eq_false, if_false, hsum,
      string_mk_length, hlen, Bool.not_eq_true', beq_eq_false_iff_ne, ne_eq,
      Bool.or_eq_true, beq_iff_eq, decide_eq_true_eq]
    constructor
    · rintro ⟨⟨⟨hreq, hmin⟩, hmax⟩, hl⟩
      rcases hmin with hmin | hmin
      · exact absurd hmin hne
      · constructor
        · omega
        · revert hl
          split_ifs with hmod
          · intro _; exact hmod
          · intro hl; simp at hl
    · rintro ⟨hd, hmod⟩
      refine ⟨⟨⟨hne, Or.inr (by omega)⟩, by omega⟩, ?_⟩
      simp [hmod]

/-- Claim C7 counterexample: the formatted 15-digit Luhn-valid value
"3782 8224 6310 005" is accepted by the full payment form even though its
digit count 15 violates the claimed 16 to 19 digit bound — the 16/19 length
validators measure the formatted string (18 characters here), not the digits. -/
theorem cardNumber_length_cex :
    formValid { cardNumber := formatCardNumber "378282246310005",
                expiryDate := "12 / 25", cvc := "123",
                cardHolder := "Juan Perez" } = true ∧
    (digitsOf "378282246310005").length = 15 ∧
    ¬(16 ≤ (digitsOf "378282246310005").length ∧
      (digitsOf "378282246310005").length ≤ 19) := by
  exact ⟨by decide, by decide, by decide⟩

/-- Claim C7 (amended): the card-number length validators operate on the
formatted value, spaces included, so for every raw input the payment form
accepts the formatted value iff the digit-stripped value truncated to 16
digits has between 13 and 16 digits and passes the Luhn checksum, and the
remaining fields pass their own validators. -/
theorem cardNumber_formatted_amended (raw : String) (f : PaymentFormValue) :
    formValid { f with cardNumber := formatCardNumber raw } = true ↔
      (13 ≤ (digitsOf raw).length ∧
       luhnLoop (digitsOf raw).reverse false % 10 = 0 ∧
       expiryFieldOk f.expiryDate = true ∧ cvcFieldOk f.cvc = true ∧
       cardHolderFieldOk f.cardHolder = true) := by
  have hmain := cardNumberFieldOk_grp (digitsOf raw) (digitsOf_all_digit raw)
    (digitsOf_length_le raw)
  simp only [formValid, Bool.and_eq_true, formatCardNumber]
  constructor
  · rintro ⟨⟨⟨hcard, hexp⟩, hcvc⟩, hhold⟩
    have := hmain.mp hcard
    exact ⟨this.1, this.2, hexp, hcvc, hhold⟩
  · rintro ⟨hd, hmod, hexp, hcvc, hhold⟩
    exact ⟨⟨⟨hmain.mpr ⟨hd, hmod⟩, hexp⟩, hcvc⟩, hhold⟩

/-- Witness for claim C7 (amended): applied to a 16-digit Luhn-valid raw
input and otherwise valid fields. -/
theorem cardNumber_formatted_amended_witness :
    formValid { goodForm with cardNumber := formatCardNumber "4532015112830366" } = true :=
  (cardNumber_formatted_amended "4532015112830366" goodForm).mpr
    ⟨by decide, by decide, by decide, by decide, by decide⟩

/-! Section: Claim C6 -/

/-- A link whose base amount plus fees lands exactly on a negative half-cent. -/
def negTieLink : PaymentLinkWithPreviewResponse :=
  { sampleLink with amountUsd := 0,
                    feePreview := { sampleFeePreview with totalFeesUsd := -0.005 } }

/-- A state with `negTieLink` loaded. -/
def negTieState : CheckoutState :=
  { initState with paymentLink := some negTieLink }

/-- A state with `sampleLink` (base 100, fees 5.555) loaded. -/
def sampleLinkState : CheckoutState :=
  { initState with paymentLink := some sampleLink }

/-- Claim C6 counterexample: with a loaded link whose total is exactly
-0.005, `Math.round` (half-up, toward positive infinity) yields 0 while the
claimed half-away-from-zero rounding yields -0.01, so the claimed formula
does not describe `totalAmount`. -/
theorem totalAmount_rounding_cex :
    totalAmount negTieState = 0 ∧
    specTotalAmount negTieState = -(1 / 100 : ℚ) ∧
    totalAmount negTieState ≠ specTotalAmount negTieState := by
  have htot : (negTieLink.amountUsd + negTieLink.feePreview.totalFeesUsd) * 100
      = -(1 / 2 : ℚ) := by
    show ((0 : ℚ) + -0.005) * 100 = -(1 / 2 : ℚ)
    norm_num
  have hpl : negTieState.paymentLink = some negTieLink := rfl
  have h1 : totalAmount negTieState = 0 := by
    simp only [totalAmount, hpl]
    rw [htot]
    have : jsRound (-(1 / 2 : ℚ)) = 0 := by
      rw [jsRound, Int.floor_eq_iff]
      norm_num
    rw [this]
    norm_num
  have h2 : specTotalAmount negTieState = -(1 / 100 : ℚ) := by
    simp only [specTotalAmount, hpl]
    rw [htot]
    have : specRoundHalfAwayFromZero (-(1 / 2 : ℚ)) = -1 := by
      rw [specRoundHalfAwayFromZero]
      rw [if_neg (by norm_num)]
      have : ⌊(-(-(1 / 2 : ℚ)) + 1 / 2)⌋ = 1 := by
        rw [Int.floor_eq_iff]
        norm_num
      rw [this]
    rw [this]
    norm_num
  exact ⟨h1, h2, by rw [h1, h2]; norm_num⟩

/-- Claim C6 (amended): `totalAmount` is zero without a loaded link and
otherwise rounds `(amountUsd + feePreview.totalFeesUsd) * 100` half-up (ties
toward positive infinity) before dividing by 100; half-up agrees with the
claimed half-away-from-zero rounding whenever the total is non-negative, and
the worked example (base 100, fees 5.555) yields 105.56. -/
theorem totalAmount_halfUp_amended :
    (∀ s : CheckoutState, s.paymentLink = none → totalAmount s = 0) ∧
    (∀ (s : CheckoutState) (link : PaymentLinkWithPreviewResponse),
      s.paymentLink = some link →
      totalAmount s =
        (jsRound ((link.amountUsd + link.feePreview.totalFeesUsd) * 100) : ℚ) / 100) ∧
    (∀ q : ℚ, 0 ≤ q → jsRound q = specRoundHalfAwayFromZero q) ∧
    (∀ (s : CheckoutState) (link : PaymentLinkWithPreviewResponse),
      s.paymentLink = some link → link.amountUsd = 100 →
      link.feePreview.totalFeesUsd = 5.555 → totalAmount s = 105.56) := by
  refine ⟨?_, ?_, ?_, ?_⟩
  · intro s h
    simp [totalAmount, h]
  · intro s link h
    simp [totalAmount, h]
  · intro q hq
    simp [jsRound, specRoundHalfAwayFromZero, hq]
  · intro s link h hamt hfee
    simp only [totalAmount, h]
    rw [hamt, hfee]
    have htot : ((100 : ℚ) + 5.555) * 100 = 21111 / 2 := by norm_num
    rw [htot]
    have : jsRound ((21111 : ℚ) / 2) = 10556 := by
      rw [jsRound, Int.floor_eq_iff]
      norm_num
    rw [this]
    norm_num

/-- Witness for claim C6 (amended): the no-link case at the initial state and
the worked example at a state with the sample link loaded. -/
theorem totalAmount_halfUp_amended_witness :
    totalAmount initState = 0 ∧ totalAmount sampleLinkState = 105.56 := by
  refine ⟨totalAmount_halfUp_amended.1 initState rfl, ?_⟩
  exact totalAmount_halfUp_amended.2.2.2 sampleLinkState sampleLink rfl rfl rfl

/-! Section: Shape lemmas for the transitions -/

theorem loadLink_formDisabled (s : CheckoutState) (id : String)
    (outcome : Option PaymentLinkWithPreviewResponse) :
    (loadLink s id outcome).formDisabled = s.formDisabled := by
  cases outcome <;> simp [loadLink]

theorem loadLink_paymentResult (s : CheckoutState) (id : String)
    (outcome : Option PaymentLinkWithPreviewResponse) :
    (loadLink s id outcome).paymentResult = s.paymentResult := by
  cases outcome <;> simp [loadLink]

theorem loadLink_status (s : CheckoutState) (id : String)
    (outcome : Option PaymentLinkWithPreviewResponse) :
    (loadLink s id outcome).status = CheckoutStatus.READY_TO_PAY ∨
    (loadLink s id outcome).status = CheckoutStatus.LINK_NOT_FOUND := by
  cases outcome <;> simp [loadLink]

/-- Exhaustive description of the observable outcomes of `onSubmit`. -/
theorem onSubmit_cases (s : CheckoutState) (tok : TokenOutcome) (gw : SubmitOutcome) :
    (formValid s.form = false ∧ onSubmit s tok gw = { s with formTouched := true }) ∨
    (formValid s.form = true ∧
      (onSubmit s tok gw).status = CheckoutStatus.ERROR_RETRYABLE ∧
      (onSubmit s tok gw).paymentResult = s.paymentResult ∧
      (onSubmit s tok gw).formDisabled = false) ∨
    (formValid s.form = true ∧
      ∃ resp, gw = SubmitOutcome.ok resp ∧
        (onSubmit s tok gw).paymentResult = some resp ∧
        ((onSubmit s tok gw).status = CheckoutStatus.COMPLETED ∨
         (onSubmit s tok gw).status = CheckoutStatus.FAILED) ∧
        (onSubmit s tok gw).formDisabled = false) := by
  by_cases h : formValid s.form
  · right
    cases tok with
    | errored =>
      left
      exact ⟨h, by simp [onSubmit, h], by simp [onSubmit, h], by simp [onSubmit, h]⟩
    | ok =>
      cases hpl : s.paymentLink with
      | none =>
        left
        exact ⟨h, by simp [onSubmit, h, hpl], by simp [onSubmit, h, hpl],
          by simp [onSubmit, h, hpl]⟩
      | some link =>
        by_cases hid : link.id = ""
        · left
          exact ⟨h, by simp [onSubmit, h, hpl, hid], by simp [onSubmit, h, hpl, hid],
            by simp [onSubmit, h, hpl, hid]⟩
        · cases gw with
          | ok resp =>
            right
            refine ⟨h, resp, rfl, by simp [onSubmit, h, hpl, hid], ?_,
              by simp [onSubmit, h, hpl, hid]⟩
            cases hrs : resp.status <;> simp [onSubmit, h, hpl, hid, hrs]
          | transportError body =>
            left
            exact ⟨h, by simp [onSubmit, h, hpl, hid], by simp [onSubmit, h, hpl, hid],
              by simp [onSubmit, h, hpl, hid]⟩
  · left
    exact ⟨by simpa using h, by simp [onSubmit, h]⟩

/-! Section: Claim C1 -/

/-- Claim C1: with a valid form and a loaded link carrying a truthy id, an
HTTP-level success of the gateway submit call stores the returned result and
branches on its status field (COMPLETED exactly when the result says
COMPLETED, FAILED otherwise), while a transport-level error moves to
ERROR_RETRYABLE, stores no result, and surfaces the server message exactly
when the error body carries a string `message`, else the generic
retry-prompting message. -/
theorem onSubmit_gateway_outcomes (s : CheckoutState)
    (link : PaymentLinkWithPreviewResponse)
    (hform : formValid s.form = true) (hlink : s.paymentLink = some link)
    (hid : link.id ≠ "") :
    (∀ resp : ProcessPaymentResponse,
      (step s (Event.onSubmit TokenOutcome.ok (SubmitOutcome.ok resp))).paymentResult
          = some resp ∧
      (step s (Event.onSubmit TokenOutcome.ok (SubmitOutcome.ok resp))).status
          = (if resp.status = PaymentResultStatus.COMPLETED then CheckoutStatus.COMPLETED
             else CheckoutStatus.FAILED)) ∧
    (∀ body : Option ApiErrorBody,
      (step s (Event.onSubmit TokenOutcome.ok
          (SubmitOutcome.transportError body))).status
          = CheckoutStatus.ERROR_RETRYABLE ∧
      (step s (Event.onSubmit TokenOutcome.ok
          (SubmitOutcome.transportError body))).paymentResult = s.paymentResult ∧
      (step s (Event.onSubmit TokenOutcome.ok
          (SubmitOutcome.transportError body))).errorMessage
          = some (match body with
                  | some (ApiErrorBody.withMessage m) => m
                  | _ => genericTransportMsg)) := by
  constructor
  · intro resp
    constructor <;> simp [step, onSubmit, hform, hlink, hid]
  · intro body
    refine ⟨?_, ?_, ?_⟩ <;> simp [step, onSubmit, hform, hlink, hid]

/-- Witness for claim C1: both gateway outcomes at a concrete ready state. -/
theorem onSubmit_gateway_outcomes_witness :
    (step readyState (Event.onSubmit TokenOutcome.ok
        (SubmitOutcome.ok completedResp))).status = CheckoutStatus.COMPLETED ∧
    (step readyState (Event.onSubmit TokenOutcome.ok
        (SubmitOutcome.transportError (some (ApiErrorBody.withMessage
          "Card declined"))))).errorMessage = some "Card declined" := by
  have h := onSubmit_gateway_outcomes readyState sampleLink (by decide) rfl (by decide)
  refine ⟨?_, ?_⟩
  · have h1 := (h.1 completedResp).2
    rw [h1]
    rfl
  · exact (h.2 (some (ApiErrorBody.withMessage "Card declined"))).2.2

/-! Section: Claim C2 -/

/-- The form-disabled flag is `false` in every reachable resting state: only
`onSubmit` sets it, and every branch of `onSubmit` that sets it also clears
it before coming to rest. -/
theorem reachable_formDisabled_false :
    ∀ s : CheckoutState, Reachable s → s.formDisabled = false := by
  apply reachable_invariant
  · rfl
  · intro s e h
    cases e with
    | routeParams id outcome =>
      cases id with
      | none => simpa [step, routeParamsEvent] using h
      | some i => simpa [step, routeParamsEvent, loadLink_formDisabled] using h
    | loadLink id outcome => simpa [step, loadLink_formDisabled] using h
    | search outcome =>
      simp only [step, search]
      split_ifs <;> simpa [loadLink_formDisabled] using h
    | onSubmit tok gw =>
      rcases onSubmit_cases s tok gw with ⟨_, heq⟩ | ⟨_, _, _, hfd⟩ | ⟨_, _, _, _, _, hfd⟩
      · simpa [step, heq] using h
      · simpa [step] using hfd
      · simpa [step] using hfd
    | retry => simpa [step, retry] using h
    | setForm f => simpa [step] using h
    | setSearch v => simpa [step] using h

/-- Claim C2: no reachable resting state outside `PROCESSING_PAYMENT` has the
form disabled, and every exit path of a submission attempted with a valid
form — gateway success with either business outcome, transport error,
tokenization throw, and the missing-link-id throw — re-enables the form. -/
theorem processing_exit_reenables_form :
    (∀ s : CheckoutState, Reachable s →
      s.status ≠ CheckoutStatus.PROCESSING_PAYMENT → s.formDisabled = false) ∧
    (∀ (s : CheckoutState) (tok : TokenOutcome) (gw : SubmitOutcome),
      formValid s.form = true →
      (step s (Event.onSubmit tok gw)).formDisabled = false) := by
  constructor
  · intro s hs _
    exact reachable_formDisabled_false s hs
  · intro s tok gw hform
    rcases onSubmit_cases s tok gw with ⟨hbad, _⟩ | ⟨_, _, _, hfd⟩ | ⟨_, _, _, _, _, hfd⟩
    · rw [hform] at hbad
      exact absurd hbad (by simp)
    · simpa [step] using hfd
    · simpa [step] using hfd

/-- Witness for claim C2: the initial state is reachable and enabled, and a
concrete submission from a ready state with a valid form ends re-enabled. -/
theorem processing_exit_reenables_form_witness :
    initState.formDisabled = false ∧
    (step readyState (Event.onSubmit TokenOutcome.errored
        (SubmitOutcome.transportError none))).formDisabled = false := by
  constructor
  · exact processing_exit_reenables_form.1 initState ⟨[], rfl⟩ (by decide)
  · exact processing_exit_reenables_form.2 readyState TokenOutcome.errored
      (SubmitOutcome.transportError none) (by decide)

/-! Section: Claim C4 -/

/-- Claim C4: from any state whose status is FAILED or ERROR_RETRYABLE —
whatever prior failure produced it — `retry()` returns to READY_TO_PAY and
clears both the stored payment result and the error message. -/
theorem retry_resets (s : CheckoutState)
    (_h : s.status = CheckoutStatus.FAILED ∨ s.status = CheckoutStatus.ERROR_RETRYABLE) :
    (step s Event.retry).status = CheckoutStatus.READY_TO_PAY ∧
    (step s Event.retry).paymentResult = none ∧
    (step s Event.retry).errorMessage = none := by
  exact ⟨rfl, rfl, rfl⟩

/-- Witness for claim C4: applied to a concrete failed state. -/
theorem retry_resets_witness :
    (step { readyState with status := CheckoutStatus.FAILED,
                            paymentResult := some failedResp,
                            errorMessage := some "declined" }
        Event.retry).status = CheckoutStatus.READY_TO_PAY :=
  (retry_resets _ (Or.inl rfl)).1

/-! Section: Claim C8 -/

/-- Claim C8: a submission with an invalid form only marks the form touched —
status, link, result and error message are untouched and no collaborator is
invoked — and a search with an invalid control only marks it touched and
performs no navigation. -/
theorem invalid_input_no_effect :
    (∀ (s : CheckoutState) (tok : TokenOutcome) (gw : SubmitOutcome),
      formValid s.form = false →
      step s (Event.onSubmit tok gw) = { s with formTouched := true }) ∧
    (∀ (s : CheckoutState) (outcome : Option PaymentLinkWithPreviewResponse),
      searchControlInvalid s.searchValue = true →
      step s (Event.search outcome) = { s with searchTouched := true }) := by
  constructor
  · intro s tok gw h
    simp [step, onSubmit, h]
  · intro s outcome h
    simp [step, search, h]

/-- Witness for claim C8: both rejections at the initial state, whose form
and search control are both invalid. -/
theorem invalid_input_no_effect_witness :
    step initState (Event.onSubmit TokenOutcome.ok (SubmitOutcome.transportError none))
        = { initState with formTouched := true } ∧
    step initState (Event.search none) = { initState with searchTouched := true } := by
  constructor
  · exact invalid_input_no_effect.1 initState TokenOutcome.ok
      (SubmitOutcome.transportError none) (by decide)
  · exact invalid_input_no_effect.2 initState none (by decide)

/-! Section: Claim C10 -/

/-- Claim C10: a failed lookup moves to LINK_NOT_FOUND and pre-fills the
search control with the attempted id, but neither the previously loaded link
nor the derived total change. -/
theorem loadLink_failure_frame (s : CheckoutState) (id : String) :
    (step s (Event.loadLink id none)).status = CheckoutStatus.LINK_NOT_FOUND ∧
    (step s (Event.loadLink id none)).searchValue = id ∧
    (step s (Event.loadLink id none)).paymentLink = s.paymentLink ∧
    totalAmount (step s (Event.loadLink id none)) = totalAmount s := by
  refine ⟨rfl, rfl, rfl, ?_⟩
  have h3 : (step s (Event.loadLink id none)).paymentLink = s.paymentLink := rfl
  simp only [totalAmount, h3]

/-! Section: Claim C3 -/

/-- A trace that invokes `retry` straight from the initial state: `retry` has
no guard, so it lands in READY_TO_PAY without any loaded link. -/
def retryFromInitTrace : List Event :=
  [Event.retry]

/-- A trace that completes a payment and then successfully loads a second
link: `loadLink` never clears a previously stored payment result. -/
def reloadAfterCompletionTrace : List Event :=
  [Event.routeParams (some "pl_abc123xyz") (some sampleLink),
   Event.setForm goodForm,
   Event.onSubmit TokenOutcome.ok (SubmitOutcome.ok completedResp),
   Event.loadLink "pl_second" (some sampleLink2)]

/-- Claim C3 counterexample: two reachable states with status READY_TO_PAY
violate the claimed invariant — one (reached by an unguarded `retry` from the
initial state) has no loaded PaymentLink, the other (reached by reloading a
link after a completed payment) still holds the stale PaymentResult. -/
theorem status_consistency_cex :
    ((run retryFromInitTrace).status = CheckoutStatus.READY_TO_PAY ∧
     (run retryFromInitTrace).paymentLink = none) ∧
    ((run reloadAfterCompletionTrace).status = CheckoutStatus.READY_TO_PAY ∧
     (run reloadAfterCompletionTrace).paymentResult = some completedResp) := by
  exact ⟨⟨rfl, rfl⟩, ⟨rfl, rfl⟩⟩

/-- Claim C3 (amended): in every state reachable from the initial state by
any sequence of the operations, status COMPLETED or FAILED implies a present
PaymentResult.  The READY_TO_PAY halves of the claimed invariant do not hold:
`retry` is unguarded, so READY_TO_PAY is reachable with no PaymentLink, and a
successful `loadLink` does not clear a PaymentResult stored by an earlier
completed payment. -/
theorem terminal_status_has_result :
    ∀ s : CheckoutState, Reachable s →
      (s.status = CheckoutStatus.COMPLETED ∨ s.status = CheckoutStatus.FAILED) →
      ∃ r, s.paymentResult = some r := by
  apply reachable_invariant
    (P := fun s => (s.status = CheckoutStatus.COMPLETED ∨
        s.status = CheckoutStatus.FAILED) → ∃ r, s.paymentResult = some r)
  · rintro (h | h) <;> exact absurd h (by decide)
  · intro s e hP
    cases e with
    | routeParams id outcome =>
      cases id with
      | none =>
        rintro (h | h) <;> exact absurd h (by simp [step, routeParamsEvent])
      | some i =>
        intro hterm
        rcases loadLink_status s i outcome with h | h <;>
          rw [show step s (Event.routeParams (some i) outcome)
                = loadLink s i outcome from rfl] at hterm <;>
          rw [h] at hterm <;> exact absurd hterm (by decide)
    | loadLink id outcome =>
      intro hterm
      rcases loadLink_status s id outcome with h | h <;>
        rw [show step s (Event.loadLink id outcome) = loadLink s id outcome from rfl]
          at hterm <;>
        rw [h] at hterm <;> exact absurd hterm (by decide)
    | search outcome =>
      simp only [step, search]
      split_ifs with hinv htrim
      · intro hterm
        exact hP (by simpa using hterm)
      · intro hterm
        exact hP hterm
      · intro hterm
        rcases loadLink_status s s.searchValue.trim outcome with h | h <;>
          rw [h] at hterm <;> exact absurd hterm (by decide)
    | onSubmit tok gw =>
      have hstep : step s (Event.onSubmit tok gw) = onSubmit s tok gw := rfl
      rcases onSubmit_cases s tok gw with ⟨_, heq⟩ | ⟨_, hst, hres, _⟩ |
        ⟨_, resp, _, hres, _, _⟩
      · intro hterm
        rw [hstep, heq] at hterm ⊢
        exact hP (by simpa using hterm)
      · intro hterm
        rw [hstep] at hterm
        rcases hterm with h | h <;> rw [hst] at h <;> exact absurd h (by decide)
      · intro _
        rw [hstep]
        exact ⟨resp, hres⟩
    | retry =>
      rintro (h | h) <;> exact absurd h (by simp [step, retry])
    | setForm f =>
      intro hterm
      exact hP (by simpa [step] using hterm)
    | setSearch v =>
      intro hterm
      exact hP (by simpa [step] using hterm)

/-- Witness for claim C3 (amended): a reachable COMPLETED state indeed holds
a payment result. -/
theorem terminal_status_has_result_witness :
    ∃ r, (run [Event.routeParams (some "pl_abc123xyz") (some sampleLink),
               Event.setForm goodForm,
               Event.onSubmit TokenOutcome.ok (SubmitOutcome.ok completedResp)]).paymentResult
        = some r :=
  terminal_status_has_result _
    ⟨[Event.routeParams (some "pl_abc123xyz") (some sampleLink),
      Event.setForm goodForm,
      Event.onSubmit TokenOutcome.ok (SubmitOutcome.ok completedResp)], rfl⟩
    (Or.inl rfl)

end KiraFrontend
